import Mathlib

/-!
MCU Link (`mcu_link.h`): the records the exposure macros place in flash.

`mcu_link.h` is a header of preprocessor macros.  Each `MCULINK_EXPOSE_*`
invocation expands to the definition of one `static const` object of an
anonymous struct type with a designated initialiser, placed in the `.mculink`
section.  This file embeds

* the constants of the header,
* a small C object model for a 32-bit little-endian target with natural
  alignment (sizes, alignments, struct layout, the byte image of an
  initialised static object),
* each macro as a function from its arguments to the declaration it expands to,

and proves properties of the byte images.
-/

namespace McuLink

/-! ## Constants of the header -/

/-- The header's `#define MCULINK_MAGIC 0x4D434C4B`. -/
def MCULINK_MAGIC : Nat := 0x4D434C4B

/-- The header's `#define MCULINK_VERSION 0x00010000`. -/
def MCULINK_VERSION : Nat := 0x00010000

/-- The header's `#define MCULINK_TYPE_UINT8 0`. -/
def MCULINK_TYPE_UINT8 : Nat := 0
/-- The header's `#define MCULINK_TYPE_INT8 1`. -/
def MCULINK_TYPE_INT8 : Nat := 1
/-- The header's `#define MCULINK_TYPE_UINT16 2`. -/
def MCULINK_TYPE_UINT16 : Nat := 2
/-- The header's `#define MCULINK_TYPE_INT16 3`. -/
def MCULINK_TYPE_INT16 : Nat := 3
/-- The header's `#define MCULINK_TYPE_UINT32 4`. -/
def MCULINK_TYPE_UINT32 : Nat := 4
/-- The header's `#define MCULINK_TYPE_INT32 5`. -/
def MCULINK_TYPE_INT32 : Nat := 5
/-- The header's `#define MCULINK_TYPE_FLOAT 6`. -/
def MCULINK_TYPE_FLOAT : Nat := 6

/-- The header's `#define MCULINK_ACCESS_RO 0`. -/
def MCULINK_ACCESS_RO : Nat := 0
/-- The header's `#define MCULINK_ACCESS_RW 1`. -/
def MCULINK_ACCESS_RW : Nat := 1

/-- The `type` argument of the exposure macros.  The macros paste it onto
`MCULINK_TYPE_`, so the only arguments that compile are the seven suffixes
for which the header defines a constant. -/
inductive TypeArg
  | UINT8 | INT8 | UINT16 | INT16 | UINT32 | INT32 | FLOAT
  deriving DecidableEq, Repr

/-- The token paste `MCULINK_TYPE_##type`. -/
def MCULINK_TYPE : TypeArg → Nat
  | .UINT8 => MCULINK_TYPE_UINT8
  | .INT8 => MCULINK_TYPE_INT8
  | .UINT16 => MCULINK_TYPE_UINT16
  | .INT16 => MCULINK_TYPE_INT16
  | .UINT32 => MCULINK_TYPE_UINT32
  | .INT32 => MCULINK_TYPE_INT32
  | .FLOAT => MCULINK_TYPE_FLOAT

/-- All type arguments, in the order the header defines their constants. -/
def TypeArg.all : List TypeArg :=
  [.UINT8, .INT8, .UINT16, .INT16, .UINT32, .INT32, .FLOAT]

/-! ## C object model: 32-bit little-endian target, natural alignment -/

/-- The C types that occur in the header. -/
inductive CType
  | uint32_t
  | uint8_t
  | float
  | char
  | array (elem : CType) (n : Nat)
  deriving DecidableEq, Repr

/-- The value of `sizeof`. -/
def CType.size : CType → Nat
  | .uint32_t => 4
  | .uint8_t => 1
  | .float => 4
  | .char => 1
  | .array elem n => n * elem.size

/-- Natural alignment: a scalar is aligned to its size, an array to its
element. -/
def CType.align : CType → Nat
  | .uint32_t => 4
  | .uint8_t => 1
  | .float => 4
  | .char => 1
  | .array elem _ => elem.align

/-- Member names of the structs of the header. -/
inductive Member
  | magic | address | var_type | access_flags | reserved | min_value
  | max_value | name | cat
  | version | entry_count | entries_offset
  | name_offset | category_offset
  deriving DecidableEq, Repr

/-- An initialiser expression, already evaluated to a constant. -/
inductive CInit
  | int (v : Nat)
  | flt (bits : Nat)
  | str (s : List Nat)
  | list (vs : List Nat)
  deriving DecidableEq, Repr

/-- Round `off` up to the next multiple of `a`. -/
def alignUp (off a : Nat) : Nat := (off + a - 1) / a * a

/-- The four bytes of a 32-bit word, least significant first. -/
def le32 (v : Nat) : List Nat :=
  [v % 256, v / 256 % 256, v / 65536 % 256, v / 16777216 % 256]

/-- A `char[n]` initialised from a string literal with content `s` (the bytes
before the literal's implicit terminator): the bytes of `s`, then zero bytes
to the end of the array.  A literal longer than the array is cut to `n` bytes,
as GCC does (with a diagnostic). -/
def initCharArray (n : Nat) (s : List Nat) : List Nat :=
  (s.take n).map (· % 256) ++ List.replicate (n - s.length) 0

/-- The byte image of an object of type `t` initialised by `i`.  An
initialiser of the wrong shape for `t` does not compile in C; no macro of the
header produces one and it is given the all-zero image here. -/
def encodeValue : CType → CInit → List Nat
  | .uint32_t, .int v => le32 (v % 2 ^ 32)
  | .uint8_t, .int v => [v % 256]
  | .char, .int v => [v % 256]
  | .float, .flt bits => le32 (bits % 2 ^ 32)
  | .array .char n, .str s => initCharArray n s
  | .array elem n, .list vs =>
      (List.range n).flatMap (fun k => encodeValue elem (.int (vs.getD k 0)))
  | t, _ => List.replicate t.size 0

/-- The image of an object of type `t` without an initialiser for it: a static
object's members that the initialiser does not name are zero. -/
def zeroValue (t : CType) : List Nat := List.replicate t.size 0

/-- Offsets of the members of a struct laid out from offset `cur`. -/
def memberOffsets : Nat → List (Member × CType) → List Nat
  | _, [] => []
  | cur, (_, t) :: rest =>
      alignUp cur t.align :: memberOffsets (alignUp cur t.align + t.size) rest

/-- The offset just past the last member of a struct laid out from `cur`. -/
def membersEnd : Nat → List (Member × CType) → Nat
  | cur, [] => cur
  | cur, (_, t) :: rest => membersEnd (alignUp cur t.align + t.size) rest

/-- The alignment of a struct: the largest alignment of a member. -/
def structAlign (ms : List (Member × CType)) : Nat :=
  ms.foldl (fun a m => max a m.2.align) 1

/-- The value of `sizeof` for a struct: the end of the last member rounded up to the
struct's alignment. -/
def structSize (ms : List (Member × CType)) : Nat :=
  alignUp (membersEnd 0 ms) (structAlign ms)

/-- The initialiser a designated initialiser list gives for member `m`: the
entry with designator `.m`, if there is one. -/
def designated : List (Member × CInit) → Member → Option CInit
  | [], _ => none
  | (k, i) :: rest, m => if k = m then some i else designated rest m

/-- The bytes of the members of a struct from offset `cur` on: padding up to each
member's offset (zero in a static object), then the member's image under the
designated initialiser `init`. -/
def membersImage (init : List (Member × CInit)) :
    Nat → List (Member × CType) → List Nat
  | _, [] => []
  | cur, (m, t) :: rest =>
      List.replicate (alignUp cur t.align - cur) 0
        ++ (match designated init m with
            | some i => encodeValue t i
            | none => zeroValue t)
        ++ membersImage init (alignUp cur t.align + t.size) rest

/-- A file-scope definition of a `const` object with an initialiser. -/
inductive Decl
  | scalar (t : CType) (i : CInit)
  | struct (ms : List (Member × CType)) (init : List (Member × CInit))
  deriving Repr

/-- The bytes the object occupies in its section. -/
def Decl.image : Decl → List Nat
  | .scalar t i => encodeValue t i
  | .struct ms init =>
      membersImage init 0 ms ++ List.replicate (structSize ms - membersEnd 0 ms) 0

/-- A C variable named as a macro argument: the spelling of its identifier and
the address the linker gave it. -/
structure CVar where
  ident : List Nat
  addr : Nat
  deriving DecidableEq, Repr

/-- The bytes of a string literal in a UTF-8 source file. -/
def cstr (s : String) : List Nat := s.toUTF8.data.toList.map UInt8.toNat

/-- The `len` bytes of `img` from offset `off` on. -/
def slice (img : List Nat) (off len : Nat) : List Nat := (img.drop off).take len

/-! ## The macros -/

/-- The members of `mculink_descriptor_t`: `magic`, `version`, `entry_count`,
`entries_offset`, each a `uint32_t`. -/
def mculink_descriptor_t : List (Member × CType) :=
  [(.magic, .uint32_t), (.version, .uint32_t), (.entry_count, .uint32_t),
   (.entries_offset, .uint32_t)]

/-- The members of `mculink_entry_t`, which no macro of the header uses. -/
def mculink_entry_t : List (Member × CType) :=
  [(.name_offset, .uint32_t), (.address, .uint32_t), (.var_type, .uint8_t),
   (.access_flags, .uint8_t), (.reserved, .array .uint8_t 2),
   (.category_offset, .uint32_t), (.min_value, .float), (.max_value, .float)]

/-- The expansion of `MCULINK_INIT()`:
`MCULINK_SECTION const uint32_t _mculink_magic = MCULINK_MAGIC;` -/
def MCULINK_INIT : Decl :=
  .scalar .uint32_t (.int MCULINK_MAGIC)

/-- The expansion of `MCULINK_EXPOSE_RO(var_name, type, category, min_val, max_val)`: the
anonymous struct and its designated initialiser.  `min_val` and `max_val` are
given as the IEEE-754 single-precision bit patterns the arguments convert
to. -/
def MCULINK_EXPOSE_RO (var_name : CVar) (type : TypeArg) (category : List Nat)
    (min_val max_val : Nat) : Decl :=
  .struct
    [(.magic, .uint32_t), (.address, .uint32_t), (.var_type, .uint8_t),
     (.access_flags, .uint8_t), (.reserved, .array .uint8_t 2),
     (.min_value, .float), (.max_value, .float),
     (.name, .array .char 32), (.cat, .array .char 32)]
    [(.magic, .int MCULINK_MAGIC),
     (.address, .int var_name.addr),
     (.var_type, .int (MCULINK_TYPE type)),
     (.access_flags, .int MCULINK_ACCESS_RO),
     (.reserved, .list [0, 0]),
     (.min_value, .flt min_val),
     (.max_value, .flt max_val),
     (.name, .str var_name.ident),
     (.cat, .str category)]

/-- The expansion of `MCULINK_EXPOSE_RW(var_name, type, category, min_val, max_val)`:
the same struct and initialiser with `.access_flags = MCULINK_ACCESS_RW`. -/
def MCULINK_EXPOSE_RW (var_name : CVar) (type : TypeArg) (category : List Nat)
    (min_val max_val : Nat) : Decl :=
  .struct
    [(.magic, .uint32_t), (.address, .uint32_t), (.var_type, .uint8_t),
     (.access_flags, .uint8_t), (.reserved, .array .uint8_t 2),
     (.min_value, .float), (.max_value, .float),
     (.name, .array .char 32), (.cat, .array .char 32)]
    [(.magic, .int MCULINK_MAGIC),
     (.address, .int var_name.addr),
     (.var_type, .int (MCULINK_TYPE type)),
     (.access_flags, .int MCULINK_ACCESS_RW),
     (.reserved, .list [0, 0]),
     (.min_value, .flt min_val),
     (.max_value, .flt max_val),
     (.name, .str var_name.ident),
     (.cat, .str category)]

/-- The single-precision pattern of the literal `0.0f`. -/
def f32_0_0 : Nat := 0x00000000

/-- The single-precision pattern of the literal `1.0f`. -/
def f32_1_0 : Nat := 0x3F800000

/-- The macro `MCULINK_EXPOSE_TOGGLE(var_name, category)` expands to
`MCULINK_EXPOSE_RW(var_name, UINT8, category, 0.0f, 1.0f)`. -/
def MCULINK_EXPOSE_TOGGLE (var_name : CVar) (category : List Nat) : Decl :=
  MCULINK_EXPOSE_RW var_name .UINT8 category f32_0_0 f32_1_0

/-- The macro `MCULINK_EXPOSE_SENSOR(var_name, type, unit, min_val, max_val)` expands to
`MCULINK_EXPOSE_RO(var_name, type, "Sensors", min_val, max_val)`; `unit` does
not occur in the replacement list. -/
def MCULINK_EXPOSE_SENSOR (var_name : CVar) (type : TypeArg) (_unit : List Nat)
    (min_val max_val : Nat) : Decl :=
  MCULINK_EXPOSE_RO var_name type (cstr "Sensors") min_val max_val

/-- The member list of the anonymous struct of the exposure macros, read off
the declaration an invocation expands to. -/
def Decl.members : Decl → List (Member × CType)
  | .scalar _ _ => []
  | .struct ms _ => ms

/-! ## Records and their decoding -/

/-- The value of a finite single-precision bit pattern (sign bit, 8 exponent
bits with bias 127, 23 fraction bits) as a rational; `none` for an infinity or
a NaN. -/
def f32Value (bits : Nat) : Option ℚ :=
  let s : Nat := bits / 2 ^ 31 % 2
  let e : Nat := bits / 2 ^ 23 % 256
  let m : Nat := bits % 2 ^ 23
  if e = 255 then none
  else if e = 0 then some ((-1) ^ s * (m : ℚ) / 2 ^ 149)
  else if e < 150 then some ((-1) ^ s * ((2 ^ 23 + m : Nat) : ℚ) / 2 ^ (150 - e))
  else some ((-1) ^ s * ((2 ^ 23 + m : Nat) : ℚ) * 2 ^ (e - 150))

/-- The record a toggle is specified to have, written out field by field: the
magic word, the address, type tag 0 (UINT8), access tag 1 (read-write), two
reserved zero bytes, `min_value` 0.0 and `max_value` 1.0 as little-endian
single-precision patterns, then the name and the category in their 32-byte
fields. -/
def toggleRecord (v : CVar) (c : List Nat) : List Nat :=
  [0x4B, 0x4C, 0x43, 0x4D] ++ le32 (v.addr % 2 ^ 32) ++ [0] ++ [1] ++ [0, 0]
    ++ [0x00, 0x00, 0x00, 0x00] ++ [0x00, 0x00, 0x80, 0x3F]
    ++ initCharArray 32 v.ident ++ initCharArray 32 c

/-- The single-precision pattern of `-40.0f`. -/
def f32_neg_40_0 : Nat := 0xC2200000

/-- The single-precision pattern of `85.0f`. -/
def f32_85_0 : Nat := 0x42AA0000

/-- The single-precision pattern of `3000.0f`. -/
def f32_3000_0 : Nat := 0x453B8000

/-- The variable `motor_speed` of the header's usage example, placed at
`0x20000010`. -/
def motor_speed : CVar := ⟨cstr "motor_speed", 0x20000010⟩

theorem initCharArray_length (n : Nat) (s : List Nat) :
    (initCharArray n s).length = n := by
  simp [initCharArray]
  omega

theorem le32_length (v : Nat) : (le32 v).length = 4 := rfl

/-- The image of a read-only record, member by member. -/
theorem image_EXPOSE_RO (v : CVar) (t : TypeArg) (c : List Nat) (mn mx : Nat) :
    (MCULINK_EXPOSE_RO v t c mn mx).image =
      le32 (MCULINK_MAGIC % 2 ^ 32) ++ (le32 (v.addr % 2 ^ 32)
        ++ ([MCULINK_TYPE t % 256] ++ ([MCULINK_ACCESS_RO % 256] ++ ([0, 0]
        ++ (le32 (mn % 2 ^ 32) ++ (le32 (mx % 2 ^ 32)
        ++ (initCharArray 32 v.ident ++ initCharArray 32 c))))))) := by
  simp +decide [MCULINK_EXPOSE_RO, Decl.image, membersImage, encodeValue, alignUp,
    CType.size, CType.align, structSize, structAlign, membersEnd, designated,
    List.range, List.range.loop, zeroValue]

/-- The image of a read-write record, member by member. -/
theorem image_EXPOSE_RW (v : CVar) (t : TypeArg) (c : List Nat) (mn mx : Nat) :
    (MCULINK_EXPOSE_RW v t c mn mx).image =
      le32 (MCULINK_MAGIC % 2 ^ 32) ++ (le32 (v.addr % 2 ^ 32)
        ++ ([MCULINK_TYPE t % 256] ++ ([MCULINK_ACCESS_RW % 256] ++ ([0, 0]
        ++ (le32 (mn % 2 ^ 32) ++ (le32 (mx % 2 ^ 32)
        ++ (initCharArray 32 v.ident ++ initCharArray 32 c))))))) := by
  simp +decide [MCULINK_EXPOSE_RW, Decl.image, membersImage, encodeValue, alignUp,
    CType.size, CType.align, structSize, structAlign, membersEnd, designated,
    List.range, List.range.loop, zeroValue]

/-- Both exposure macros declare the same anonymous struct. -/
theorem members_EXPOSE (v : CVar) (t : TypeArg) (c : List Nat) (mn mx : Nat) :
    (MCULINK_EXPOSE_RW v t c mn mx).members = (MCULINK_EXPOSE_RO v t c mn mx).members :=
  rfl

/-- The nine member slices of an 84-byte image assembled member by member. -/
theorem slices_of_image (img m a ty ac mnb mxb nm ct : List Nat)
    (hm : m.length = 4) (ha : a.length = 4) (hty : ty.length = 1) (hac : ac.length = 1)
    (hmn : mnb.length = 4) (hmx : mxb.length = 4) (hnm : nm.length = 32)
    (hct : ct.length = 32)
    (h : img = m ++ (a ++ (ty ++ (ac ++ ([0, 0] ++ (mnb ++ (mxb ++ (nm ++ ct)))))))) :
    slice img 0 4 = m ∧ slice img 4 4 = a ∧ slice img 8 1 = ty ∧ slice img 9 1 = ac
      ∧ slice img 10 2 = [0, 0] ∧ slice img 12 4 = mnb ∧ slice img 16 4 = mxb
      ∧ slice img 20 32 = nm ∧ slice img 52 32 = ct ∧ img.length = 84 := by
  subst h
  match m, a, ty, ac, mnb, mxb, hm, ha, hty, hac, hmn, hmx with
  | [m0, m1, m2, m3], [a0, a1, a2, a3], [t0], [c0], [p0, p1, p2, p3], [q0, q1, q2, q3],
      _, _, _, _, _, _ =>
    refine ⟨by simp [slice], by simp [slice], by simp [slice], by simp [slice],
      by simp [slice], by simp [slice], by simp [slice], ?_, ?_, ?_⟩
    · simp [slice, List.take_left' hnm]
    · have hd : List.drop 32 (nm ++ ct) = ct := List.drop_left' hnm
      simp [slice, hd, List.take_of_length_le (le_of_eq hct)]
    · simp [hnm, hct]

theorem MCULINK_TYPE_le (t : TypeArg) : MCULINK_TYPE t ≤ 6 := by
  cases t <;> decide

theorem MCULINK_TYPE_mod (t : TypeArg) : MCULINK_TYPE t % 256 = MCULINK_TYPE t :=
  Nat.mod_eq_of_lt (lt_of_le_of_lt (MCULINK_TYPE_le t) (by decide))

/-- The member slices of a read-only record. -/
theorem slices_EXPOSE_RO (v : CVar) (t : TypeArg) (c : List Nat) (mn mx : Nat) :
    slice (MCULINK_EXPOSE_RO v t c mn mx).image 0 4 = le32 MCULINK_MAGIC
      ∧ slice (MCULINK_EXPOSE_RO v t c mn mx).image 4 4 = le32 (v.addr % 2 ^ 32)
      ∧ slice (MCULINK_EXPOSE_RO v t c mn mx).image 8 1 = [MCULINK_TYPE t]
      ∧ slice (MCULINK_EXPOSE_RO v t c mn mx).image 9 1 = [MCULINK_ACCESS_RO]
      ∧ slice (MCULINK_EXPOSE_RO v t c mn mx).image 10 2 = [0, 0]
      ∧ slice (MCULINK_EXPOSE_RO v t c mn mx).image 12 4 = le32 (mn % 2 ^ 32)
      ∧ slice (MCULINK_EXPOSE_RO v t c mn mx).image 16 4 = le32 (mx % 2 ^ 32)
      ∧ slice (MCULINK_EXPOSE_RO v t c mn mx).image 20 32 = initCharArray 32 v.ident
      ∧ slice (MCULINK_EXPOSE_RO v t c mn mx).image 52 32 = initCharArray 32 c
      ∧ (MCULINK_EXPOSE_RO v t c mn mx).image.length = 84 := by
  have h := slices_of_image _ _ _ [MCULINK_TYPE t % 256] [MCULINK_ACCESS_RO % 256] _ _ _ _
    (le32_length _) (le32_length _) rfl rfl
    (le32_length _) (le32_length _) (initCharArray_length 32 v.ident)
    (initCharArray_length 32 c) (image_EXPOSE_RO v t c mn mx)
  rw [MCULINK_TYPE_mod] at h
  exact h

/-- The member slices of a read-write record. -/
theorem slices_EXPOSE_RW (v : CVar) (t : TypeArg) (c : List Nat) (mn mx : Nat) :
    slice (MCULINK_EXPOSE_RW v t c mn mx).image 0 4 = le32 MCULINK_MAGIC
      ∧ slice (MCULINK_EXPOSE_RW v t c mn mx).image 4 4 = le32 (v.addr % 2 ^ 32)
      ∧ slice (MCULINK_EXPOSE_RW v t c mn mx).image 8 1 = [MCULINK_TYPE t]
      ∧ slice (MCULINK_EXPOSE_RW v t c mn mx).image 9 1 = [MCULINK_ACCESS_RW]
      ∧ slice (MCULINK_EXPOSE_RW v t c mn mx).image 10 2 = [0, 0]
      ∧ slice (MCULINK_EXPOSE_RW v t c mn mx).image 12 4 = le32 (mn % 2 ^ 32)
      ∧ slice (MCULINK_EXPOSE_RW v t c mn mx).image 16 4 = le32 (mx % 2 ^ 32)
      ∧ slice (MCULINK_EXPOSE_RW v t c mn mx).image 20 32 = initCharArray 32 v.ident
      ∧ slice (MCULINK_EXPOSE_RW v t c mn mx).image 52 32 = initCharArray 32 c
      ∧ (MCULINK_EXPOSE_RW v t c mn mx).image.length = 84 := by
  have h := slices_of_image _ _ _ [MCULINK_TYPE t % 256] [MCULINK_ACCESS_RW % 256] _ _ _ _
    (le32_length _) (le32_length _) rfl rfl
    (le32_length _) (le32_length _) (initCharArray_length 32 v.ident)
    (initCharArray_length 32 c) (image_EXPOSE_RW v t c mn mx)
  rw [MCULINK_TYPE_mod] at h
  exact h

theorem initCharArray_eq (n : Nat) (s : List Nat) (h : s.length ≤ n)
    (hb : ∀ b ∈ s, b < 256) :
    initCharArray n s = s ++ List.replicate (n - s.length) 0 := by
  unfold initCharArray
  rw [List.take_of_length_le h]
  congr 1
  calc s.map (· % 256) = s.map id :=
        List.map_congr_left (fun b hbs => Nat.mod_eq_of_lt (hb b hbs))
    _ = s := List.map_id s

theorem encodeValue_uint32_length (i : CInit) : (encodeValue .uint32_t i).length = 4 := by
  cases i <;> simp [encodeValue, le32, CType.size]

/-! ## The claims -/

/-- C1: every record emitted by `MCULINK_EXPOSE_RO` or `MCULINK_EXPOSE_RW`
(32-bit target, natural alignment) has its members `magic`, `address`,
`var_type`, `access_flags`, `reserved`, `min_value`, `max_value`, `name`, `cat`
at byte offsets 0, 4, 8, 9, 10, 12, 16, 20, 52 with sizes 4, 4, 1, 1, 2, 4, 4, 32,
32; each member ends where the next begins and the last ends at the struct's
size (no padding between or after them); the image is exactly 84 bytes and
holds each member's value at its offset. -/
theorem C1_record_layout (v : CVar) (t : TypeArg) (c : List Nat) (mn mx : Nat) :
    ((MCULINK_EXPOSE_RO v t c mn mx).members.map Prod.fst
        = [.magic, .address, .var_type, .access_flags, .reserved, .min_value,
           .max_value, .name, .cat]
      ∧ memberOffsets 0 (MCULINK_EXPOSE_RO v t c mn mx).members
        = [0, 4, 8, 9, 10, 12, 16, 20, 52]
      ∧ (MCULINK_EXPOSE_RO v t c mn mx).members.map (fun m => m.2.size)
        = [4, 4, 1, 1, 2, 4, 4, 32, 32]
      ∧ List.zipWith (· + ·) (memberOffsets 0 (MCULINK_EXPOSE_RO v t c mn mx).members)
          ((MCULINK_EXPOSE_RO v t c mn mx).members.map (fun m => m.2.size))
        = (memberOffsets 0 (MCULINK_EXPOSE_RO v t c mn mx).members).tail
          ++ [structSize (MCULINK_EXPOSE_RO v t c mn mx).members]
      ∧ structSize (MCULINK_EXPOSE_RO v t c mn mx).members = 84
      ∧ (MCULINK_EXPOSE_RO v t c mn mx).image.length = 84
      ∧ slice (MCULINK_EXPOSE_RO v t c mn mx).image 0 4 = le32 MCULINK_MAGIC
      ∧ slice (MCULINK_EXPOSE_RO v t c mn mx).image 4 4 = le32 (v.addr % 2 ^ 32)
      ∧ slice (MCULINK_EXPOSE_RO v t c mn mx).image 8 1 = [MCULINK_TYPE t]
      ∧ slice (MCULINK_EXPOSE_RO v t c mn mx).image 9 1 = [MCULINK_ACCESS_RO]
      ∧ slice (MCULINK_EXPOSE_RO v t c mn mx).image 10 2 = [0, 0]
      ∧ slice (MCULINK_EXPOSE_RO v t c mn mx).image 12 4 = le32 (mn % 2 ^ 32)
      ∧ slice (MCULINK_EXPOSE_RO v t c mn mx).image 16 4 = le32 (mx % 2 ^ 32)
      ∧ slice (MCULINK_EXPOSE_RO v t c mn mx).image 20 32 = initCharArray 32 v.ident
      ∧ slice (MCULINK_EXPOSE_RO v t c mn mx).image 52 32 = initCharArray 32 c)
    ∧ ((MCULINK_EXPOSE_RW v t c mn mx).members.map Prod.fst
        = [.magic, .address, .var_type, .access_flags, .reserved, .min_value,
           .max_value, .name, .cat]
      ∧ memberOffsets 0 (MCULINK_EXPOSE_RW v t c mn mx).members
        = [0, 4, 8, 9, 10, 12, 16, 20, 52]
      ∧ (MCULINK_EXPOSE_RW v t c mn mx).members.map (fun m => m.2.size)
        = [4, 4, 1, 1, 2, 4, 4, 32, 32]
      ∧ List.zipWith (· + ·) (memberOffsets 0 (MCULINK_EXPOSE_RW v t c mn mx).members)
          ((MCULINK_EXPOSE_RW v t c mn mx).members.map (fun m => m.2.size))
        = (memberOffsets 0 (MCULINK_EXPOSE_RW v t c mn mx).members).tail
          ++ [structSize (MCULINK_EXPOSE_RW v t c mn mx).members]
      ∧ structSize (MCULINK_EXPOSE_RW v t c mn mx).members = 84
      ∧ (MCULINK_EXPOSE_RW v t c mn mx).image.length = 84
      ∧ slice (MCULINK_EXPOSE_RW v t c mn mx).image 0 4 = le32 MCULINK_MAGIC
      ∧ slice (MCULINK_EXPOSE_RW v t c mn mx).image 4 4 = le32 (v.addr % 2 ^ 32)
      ∧ slice (MCULINK_EXPOSE_RW v t c mn mx).image 8 1 = [MCULINK_TYPE t]
      ∧ slice (MCULINK_EXPOSE_RW v t c mn mx).image 9 1 = [MCULINK_ACCESS_RW]
      ∧ slice (MCULINK_EXPOSE_RW v t c mn mx).image 10 2 = [0, 0]
      ∧ slice (MCULINK_EXPOSE_RW v t c mn mx).image 12 4 = le32 (mn % 2 ^ 32)
      ∧ slice (MCULINK_EXPOSE_RW v t c mn mx).image 16 4 = le32 (mx % 2 ^ 32)
      ∧ slice (MCULINK_EXPOSE_RW v t c mn mx).image 20 32 = initCharArray 32 v.ident
      ∧ slice (MCULINK_EXPOSE_RW v t c mn mx).image 52 32 = initCharArray 32 c) := by
  obtain ⟨r0, r4, r8, r9, r10, r12, r16, r20, r52, rl⟩ := slices_EXPOSE_RO v t c mn mx
  obtain ⟨w0, w4, w8, w9, w10, w12, w16, w20, w52, wl⟩ := slices_EXPOSE_RW v t c mn mx
  have lay : ∀ d : Decl, d.members = (MCULINK_EXPOSE_RO v t c mn mx).members →
      List.zipWith (· + ·) (memberOffsets 0 d.members) (d.members.map (fun m => m.2.size))
          = (memberOffsets 0 d.members).tail ++ [structSize d.members]
        ∧ structSize d.members = 84 := by
    intro d hd
    rw [hd]
    simp [MCULINK_EXPOSE_RO, Decl.members, structSize, structAlign, membersEnd,
      memberOffsets, alignUp, CType.size, CType.align]
  exact ⟨⟨rfl, rfl, rfl, (lay _ rfl).1, (lay _ rfl).2, rl,
      r0, r4, r8, r9, r10, r12, r16, r20, r52⟩,
    ⟨rfl, rfl, rfl, (lay _ (members_EXPOSE v t c mn mx)).1,
      (lay _ (members_EXPOSE v t c mn mx)).2, wl,
      w0, w4, w8, w9, w10, w12, w16, w20, w52⟩⟩

/-- C3: the seven `MCULINK_TYPE_*` constants are 0 = UINT8, 1 = INT8,
2 = UINT16, 3 = INT16, 4 = UINT32, 5 = INT32, 6 = FLOAT, pairwise distinct, and
for every type argument both exposure macros store `MCULINK_TYPE_<type>`
unchanged in the `var_type` byte at offset 8. -/
theorem C3_type_tags (v : CVar) (t : TypeArg) (c : List Nat) (mn mx : Nat) :
    [MCULINK_TYPE_UINT8, MCULINK_TYPE_INT8, MCULINK_TYPE_UINT16, MCULINK_TYPE_INT16,
        MCULINK_TYPE_UINT32, MCULINK_TYPE_INT32, MCULINK_TYPE_FLOAT]
        = [0, 1, 2, 3, 4, 5, 6]
      ∧ TypeArg.all.map MCULINK_TYPE = [0, 1, 2, 3, 4, 5, 6]
      ∧ (TypeArg.all.map MCULINK_TYPE).Nodup
      ∧ t ∈ TypeArg.all
      ∧ (MCULINK_EXPOSE_RO v t c mn mx).image[8]? = some (MCULINK_TYPE t)
      ∧ (MCULINK_EXPOSE_RW v t c mn mx).image[8]? = some (MCULINK_TYPE t) := by
  refine ⟨by decide, by decide, by decide, by cases t <;> decide, ?_, ?_⟩
  · rw [image_EXPOSE_RO, MCULINK_TYPE_mod]
    simp [le32]
  · rw [image_EXPOSE_RW, MCULINK_TYPE_mod]
    simp [le32]

/-- C4: the access tag is 0 for read-only and 1 for read-write: for every choice
of arguments the record of `MCULINK_EXPOSE_RO` has byte 9 equal to 0, the record
of `MCULINK_EXPOSE_RW` has byte 9 equal to 1, and each image is the other with
only the byte at offset 9 replaced. -/
theorem C4_access_tag (v : CVar) (t : TypeArg) (c : List Nat) (mn mx : Nat) :
    MCULINK_ACCESS_RO = 0 ∧ MCULINK_ACCESS_RW = 1
      ∧ (MCULINK_EXPOSE_RO v t c mn mx).image[9]? = some 0
      ∧ (MCULINK_EXPOSE_RW v t c mn mx).image[9]? = some 1
      ∧ (MCULINK_EXPOSE_RO v t c mn mx).image.length
          = (MCULINK_EXPOSE_RW v t c mn mx).image.length
      ∧ (MCULINK_EXPOSE_RO v t c mn mx).image.set 9 1
          = (MCULINK_EXPOSE_RW v t c mn mx).image
      ∧ (MCULINK_EXPOSE_RW v t c mn mx).image.set 9 0
          = (MCULINK_EXPOSE_RO v t c mn mx).image := by
  rw [image_EXPOSE_RO, image_EXPOSE_RW]
  simp [le32, MCULINK_ACCESS_RO, MCULINK_ACCESS_RW]

/-- C5: the bytes of `MCULINK_MAGIC` from most to least significant are the
ASCII codes of M, C, L, K, and in the little-endian image every record emitted
by `MCULINK_EXPOSE_RO` or `MCULINK_EXPOSE_RW`, and the word emitted by
`MCULINK_INIT`, begins with the bytes 0x4B 0x4C 0x43 0x4D. -/
theorem C5_magic_bytes (v : CVar) (t : TypeArg) (c : List Nat) (mn mx : Nat) :
    MCULINK_MAGIC = 0x4D434C4B
      ∧ MCULINK_MAGIC < 2 ^ 32
      ∧ [MCULINK_MAGIC / 2 ^ 24 % 256, MCULINK_MAGIC / 2 ^ 16 % 256,
          MCULINK_MAGIC / 2 ^ 8 % 256, MCULINK_MAGIC % 256]
        = ['M'.toNat, 'C'.toNat, 'L'.toNat, 'K'.toNat]
      ∧ (MCULINK_EXPOSE_RO v t c mn mx).image.take 4 = [0x4B, 0x4C, 0x43, 0x4D]
      ∧ (MCULINK_EXPOSE_RW v t c mn mx).image.take 4 = [0x4B, 0x4C, 0x43, 0x4D]
      ∧ MCULINK_INIT.image = [0x4B, 0x4C, 0x43, 0x4D] := by
  refine ⟨rfl, by decide, by decide, ?_, ?_, by decide⟩
  · rw [image_EXPOSE_RO]
    simp [le32, MCULINK_MAGIC]
  · rw [image_EXPOSE_RW]
    simp [le32, MCULINK_MAGIC]

/-- C7: for every variable identifier of 1..31 bytes (none of them NUL) and
every category string of 0..31 bytes, the `name` field of the record of either
exposure macro is the identifier followed by NUL bytes up to 32 bytes and the
`cat` field is the category followed by NUL bytes up to 32 bytes; the first byte
of the name field is not NUL, both fields hold a NUL right after the string, and
an empty category yields 32 zero bytes. -/
theorem C7_name_cat_fields (v : CVar) (t : TypeArg) (c : List Nat) (mn mx : Nat)
    (hv1 : 1 ≤ v.ident.length) (hv : v.ident.length ≤ 31)
    (hvb : ∀ b ∈ v.ident, 0 < b ∧ b < 256)
    (hc : c.length ≤ 31) (hcb : ∀ b ∈ c, b < 256) :
    (slice (MCULINK_EXPOSE_RO v t c mn mx).image 20 32
          = v.ident ++ List.replicate (32 - v.ident.length) 0
      ∧ slice (MCULINK_EXPOSE_RO v t c mn mx).image 52 32
          = c ++ List.replicate (32 - c.length) 0
      ∧ (∃ b, (MCULINK_EXPOSE_RO v t c mn mx).image[20]? = some b ∧ b ≠ 0)
      ∧ (MCULINK_EXPOSE_RO v t c mn mx).image[20 + v.ident.length]? = some 0
      ∧ (MCULINK_EXPOSE_RO v t c mn mx).image[52 + c.length]? = some 0
      ∧ slice (MCULINK_EXPOSE_RO v t [] mn mx).image 52 32 = List.replicate 32 0)
    ∧ (slice (MCULINK_EXPOSE_RW v t c mn mx).image 20 32
          = v.ident ++ List.replicate (32 - v.ident.length) 0
      ∧ slice (MCULINK_EXPOSE_RW v t c mn mx).image 52 32
          = c ++ List.replicate (32 - c.length) 0
      ∧ (∃ b, (MCULINK_EXPOSE_RW v t c mn mx).image[20]? = some b ∧ b ≠ 0)
      ∧ (MCULINK_EXPOSE_RW v t c mn mx).image[20 + v.ident.length]? = some 0
      ∧ (MCULINK_EXPOSE_RW v t c mn mx).image[52 + c.length]? = some 0
      ∧ slice (MCULINK_EXPOSE_RW v t [] mn mx).image 52 32 = List.replicate 32 0) := by
  have hname := initCharArray_eq 32 v.ident (by omega) (fun b hb => (hvb b hb).2)
  have hcat := initCharArray_eq 32 c (by omega) hcb
  have key : ∀ img : List Nat, slice img 20 32 = initCharArray 32 v.ident →
      slice img 52 32 = initCharArray 32 c →
      slice img 20 32 = v.ident ++ List.replicate (32 - v.ident.length) 0
        ∧ slice img 52 32 = c ++ List.replicate (32 - c.length) 0
        ∧ (∃ b, img[20]? = some b ∧ b ≠ 0)
        ∧ img[20 + v.ident.length]? = some 0
        ∧ img[52 + c.length]? = some 0 := by
    intro img h20 h52
    rw [hname] at h20
    rw [hcat] at h52
    have at20 : ∀ k, k < 32 → img[20 + k]? = (slice img 20 32)[k]? := by
      intro k hk
      simp [slice, List.getElem?_take, List.getElem?_drop, hk]
    have at52 : ∀ k, k < 32 → img[52 + k]? = (slice img 52 32)[k]? := by
      intro k hk
      simp [slice, List.getElem?_take, List.getElem?_drop, hk]
    refine ⟨h20, h52, ?_, ?_, ?_⟩
    · obtain ⟨b, rest, hbr⟩ := List.exists_cons_of_length_pos (Nat.lt_of_lt_of_le Nat.zero_lt_one hv1)
      refine ⟨b, ?_, ?_⟩
      · have h := at20 0 (by decide)
        rw [h20, hbr] at h
        simpa using h
      · have hb := (hvb b (by rw [hbr]; exact List.mem_cons_self b rest)).1
        omega
    · rw [at20 _ (by omega), h20, List.getElem?_append_right (le_refl _)]
      simp [List.getElem?_replicate]
      omega
    · rw [at52 _ (by omega), h52, List.getElem?_append_right (le_refl _)]
      simp [List.getElem?_replicate]
      omega
  obtain ⟨_, _, _, _, _, _, _, r20, r52, _⟩ := slices_EXPOSE_RO v t c mn mx
  obtain ⟨_, _, _, _, _, _, _, w20, w52, _⟩ := slices_EXPOSE_RW v t c mn mx
  obtain ⟨_, _, _, _, _, _, _, _, re, _⟩ := slices_EXPOSE_RO v t [] mn mx
  obtain ⟨_, _, _, _, _, _, _, _, we, _⟩ := slices_EXPOSE_RW v t [] mn mx
  obtain ⟨a1, a2, a3, a4, a5⟩ := key _ r20 r52
  obtain ⟨b1, b2, b3, b4, b5⟩ := key _ w20 w52
  exact ⟨⟨a1, a2, a3, a4, a5, by rw [re]; rfl⟩, ⟨b1, b2, b3, b4, b5, by rw [we]; rfl⟩⟩

/-- Witness of C7: `MCULINK_EXPOSE_RW(motor_speed, UINT16, "Controls", 0.0f, 3000.0f)`
and its read-only counterpart. -/
theorem C7_name_cat_fields_witness :
    (1 ≤ motor_speed.ident.length ∧ motor_speed.ident.length ≤ 31
        ∧ (cstr "Controls").length ≤ 31)
      ∧ slice (MCULINK_EXPOSE_RW motor_speed .UINT16 (cstr "Controls") f32_0_0
          f32_3000_0).image 20 32
        = cstr "motor_speed" ++ List.replicate 21 0
      ∧ slice (MCULINK_EXPOSE_RW motor_speed .UINT16 (cstr "Controls") f32_0_0
          f32_3000_0).image 52 32
        = cstr "Controls" ++ List.replicate 24 0 :=
  ⟨by decide,
    (C7_name_cat_fields motor_speed .UINT16 (cstr "Controls") f32_0_0 f32_3000_0
      (by decide) (by decide) (by decide) (by decide) (by decide)).2.1,
    (C7_name_cat_fields motor_speed .UINT16 (cstr "Controls") f32_0_0 f32_3000_0
      (by decide) (by decide) (by decide) (by decide) (by decide)).2.2.1⟩

/-- C8: for every variable and category, `MCULINK_EXPOSE_TOGGLE(v, c)` emits
exactly the record of `MCULINK_EXPOSE_RW(v, UINT8, c, 0.0, 1.0)`, which is the
record with type tag 0 (UINT8), access tag 1 (read-write), `min_value` 0.0,
`max_value` 1.0, name `v` and category `c`. -/
theorem C8_toggle (v : CVar) (c : List Nat) :
    (MCULINK_EXPOSE_TOGGLE v c).image
        = (MCULINK_EXPOSE_RW v .UINT8 c f32_0_0 f32_1_0).image
      ∧ (MCULINK_EXPOSE_TOGGLE v c).image = toggleRecord v c
      ∧ f32Value f32_0_0 = some 0 ∧ f32Value f32_1_0 = some 1
      ∧ slice (MCULINK_EXPOSE_TOGGLE v c).image 8 1 = [MCULINK_TYPE_UINT8]
      ∧ MCULINK_TYPE_UINT8 = 0
      ∧ slice (MCULINK_EXPOSE_TOGGLE v c).image 9 1 = [MCULINK_ACCESS_RW]
      ∧ MCULINK_ACCESS_RW = 1
      ∧ slice (MCULINK_EXPOSE_TOGGLE v c).image 12 4 = le32 f32_0_0
      ∧ slice (MCULINK_EXPOSE_TOGGLE v c).image 16 4 = le32 f32_1_0
      ∧ slice (MCULINK_EXPOSE_TOGGLE v c).image 20 32 = initCharArray 32 v.ident
      ∧ slice (MCULINK_EXPOSE_TOGGLE v c).image 52 32 = initCharArray 32 c := by
  obtain ⟨_, _, s8, s9, _, s12, s16, s20, s52, _⟩ :=
    slices_EXPOSE_RW v .UINT8 c f32_0_0 f32_1_0
  refine ⟨rfl, ?_, by norm_num [f32Value, f32_0_0], by norm_num [f32Value, f32_1_0],
    s8, rfl, s9, rfl, s12, s16, s20, s52⟩
  unfold MCULINK_EXPOSE_TOGGLE
  rw [image_EXPOSE_RW]
  simp [toggleRecord, le32, MCULINK_MAGIC, MCULINK_TYPE, MCULINK_TYPE_UINT8,
    MCULINK_ACCESS_RW, f32_0_0, f32_1_0]

/-- C9: `MCULINK_EXPOSE_SENSOR` does not use its `unit` argument and always
emits a read-only record with category "Sensors": for every variable, type,
bounds and any two unit strings the images are equal, the access tag is 0, the
`cat` field is "Sensors" padded with NUL bytes, and the image is that of
`MCULINK_EXPOSE_RO(var, type, "Sensors", min, max)`; so the header's own
example `MCULINK_EXPOSE_SENSOR(temperature, FLOAT, "Temperature", -40.0f, 85.0f)`
has category "Sensors" wherever `temperature` is placed. -/
theorem C9_sensor (v : CVar) (t : TypeArg) (u1 u2 : List Nat) (mn mx a : Nat) :
    (MCULINK_EXPOSE_SENSOR v t u1 mn mx).image = (MCULINK_EXPOSE_SENSOR v t u2 mn mx).image
      ∧ slice (MCULINK_EXPOSE_SENSOR v t u1 mn mx).image 9 1 = [MCULINK_ACCESS_RO]
      ∧ MCULINK_ACCESS_RO = 0
      ∧ slice (MCULINK_EXPOSE_SENSOR v t u1 mn mx).image 52 32
          = cstr "Sensors" ++ List.replicate 25 0
      ∧ (MCULINK_EXPOSE_SENSOR v t u1 mn mx).image
          = (MCULINK_EXPOSE_RO v t (cstr "Sensors") mn mx).image
      ∧ slice (MCULINK_EXPOSE_SENSOR ⟨cstr "temperature", a⟩ .FLOAT (cstr "Temperature")
            f32_neg_40_0 f32_85_0).image 52 32
          = cstr "Sensors" ++ List.replicate 25 0 := by
  obtain ⟨_, _, _, s9, _, _, _, _, s52, _⟩ := slices_EXPOSE_RO v t (cstr "Sensors") mn mx
  obtain ⟨_, _, _, _, _, _, _, _, e52, _⟩ :=
    slices_EXPOSE_RO ⟨cstr "temperature", a⟩ .FLOAT (cstr "Sensors") f32_neg_40_0 f32_85_0
  have hs : initCharArray 32 (cstr "Sensors") = cstr "Sensors" ++ List.replicate 25 0 := by
    decide
  exact ⟨rfl, s9, rfl, by rw [← hs]; exact s52, rfl, by rw [← hs]; exact e52⟩

/-- C6 (what the code does): `MCULINK_INIT()` places a single 32-bit word, the
four bytes of `MCULINK_MAGIC`, in the section, while an object of type
`mculink_descriptor_t` occupies 16 bytes whatever its initialiser; the word is
not the image of any descriptor, and no version, entry count or entries offset
is emitted. -/
theorem C6_init_emits_magic_word_only (init : List (Member × CInit)) :
    MCULINK_INIT.image = [0x4B, 0x4C, 0x43, 0x4D]
      ∧ MCULINK_INIT.image.length = 4
      ∧ structSize mculink_descriptor_t = 16
      ∧ (Decl.struct mculink_descriptor_t init).image.length = 16
      ∧ MCULINK_INIT.image ≠ (Decl.struct mculink_descriptor_t init).image := by
  have hlen : (Decl.struct mculink_descriptor_t init).image.length = 16 := by
    simp only [Decl.image, mculink_descriptor_t, membersImage]
    have hz : (zeroValue CType.uint32_t).length = 4 := rfl
    have hm : ∀ m : Member, (match designated init m with
        | some i => encodeValue CType.uint32_t i
        | none => zeroValue CType.uint32_t).length = 4 := by
      intro m
      cases designated init m with
      | none => exact hz
      | some i => exact encodeValue_uint32_length i
    simp [hm, alignUp, CType.size, CType.align, structSize, structAlign, membersEnd]
  refine ⟨by decide, by decide, by decide, hlen, ?_⟩
  intro h
  have h4 : MCULINK_INIT.image.length = 4 := by decide
  rw [h, hlen] at h4
  omega

end McuLink
